import Mathlib

/-!
Shallow embedding of `vnpy_tiger/tiger_gateway.py` (TigerGateway, the Tiger
Securities gateway for the VeighNa trading platform), together with proofs of
the behavioural claims about it.

Modelling conventions:
* Python `str` is `String`; Python `float` is `ℚ` (no claim depends on binary
  floating point rounding); Python `dict` is an association list consulted with
  `List.lookup`.
* A handle that is either `None` or a constructed client object is a `Bool`
  (`false` = `None`).
* Side effects (log events, order events, contract events, outbound broker
  calls) are collected in an explicit trace of type `List Ev`.
* The broker SDK (`tigeropen`) is an external collaborator: the outcome of a
  broker call (`place_order`, `cancel_order`) is an oracle argument of type
  `Except String Bool` — `.error e` models the call raising an exception with
  message `e`, `.ok b` models a normal return whose Python truthiness is `b`.
* Python statements that can raise are modelled with `Except String`; a
  function whose embedding returns a plain value provably lets no exception
  escape on any path.
-/

/-- Platform (`vnpy.trader.constant`) direction enum, restricted to the members
this gateway uses. -/
inductive Direction where
  | LONG
  | SHORT
deriving DecidableEq, Repr

/-- Platform order-type enum, restricted to the members this gateway uses. -/
inductive OrderType where
  | LIMIT
  | MARKET
deriving DecidableEq, Repr

/-- Platform order-status enum, restricted to the members this gateway uses. -/
inductive Status where
  | SUBMITTING
  | NOTTRADED
  | PARTTRADED
  | ALLTRADED
  | CANCELLED
  | CANCELLING
  | REJECTED
deriving DecidableEq, Repr

/-- Platform product enum (only `EQUITY` is ever constructed by the gateway). -/
inductive Product where
  | EQUITY
deriving DecidableEq, Repr

/-- Platform exchange enum, restricted to the five exchanges the gateway
advertises in `TigerGateway.exchanges` (tiger_gateway.py line 150). -/
inductive Exchange where
  | NASDAQ
  | NYSE
  | SEHK
  | SSE
  | SZSE
deriving DecidableEq, Repr

/-- The `.value` string of each platform exchange member (vnpy enum values). -/
def Exchange.value : Exchange → String
  | .NASDAQ => "NASDAQ"
  | .NYSE => "NYSE"
  | .SEHK => "SEHK"
  | .SSE => "SSE"
  | .SZSE => "SZSE"

/-- The `.value` string of each platform direction member (vnpy enum values). -/
def Direction.value : Direction → String
  | .LONG => "多"
  | .SHORT => "空"

/-- Direction mapping `DIRECTION_VT2TIGER` (tiger_gateway.py lines 74-77). -/
def DIRECTION_VT2TIGER : List (Direction × String) :=
  [(Direction.LONG, "BUY"), (Direction.SHORT, "SELL")]

/-- Order-type mapping `ORDERTYPE_VT2TIGER` (tiger_gateway.py lines 85-88). -/
def ORDERTYPE_VT2TIGER : List (OrderType × String) :=
  [(OrderType.LIMIT, "LMT"), (OrderType.MARKET, "MKT")]

/-- Order-status mapping `STATUS_TIGER2VT` (tiger_gateway.py lines 97-106, the
`TIGER_AVAILABLE` branch — the one in force whenever the gateway can connect).
Keys are the names of the `tigeropen` `OrderStatus` members, kept in source
order. -/
def STATUS_TIGER2VT : List (String × Status) :=
  [("PENDING_NEW", Status.SUBMITTING),
   ("NEW", Status.NOTTRADED),
   ("PARTIALLY_FILLED", Status.PARTTRADED),
   ("FILLED", Status.ALLTRADED),
   ("CANCELLED", Status.CANCELLED),
   ("PENDING_CANCEL", Status.CANCELLING),
   ("REJECTED", Status.REJECTED),
   ("EXPIRED", Status.CANCELLED)]

/-- Modelled from the spec: the lookup that applies `STATUS_TIGER2VT` with a
`Submitting` default on the poll/push reconciliation paths is not present in
`src` (the push handler `on_order_change` only logs); spec §4.4 states that
unknown/unmapped broker statuses default to `Submitting`. -/
def status_tiger2vt (s : String) : Status :=
  (STATUS_TIGER2VT.lookup s).getD Status.SUBMITTING

/-- Exchange mapping `EXCHANGE_TIGER2VT` (tiger_gateway.py lines 111-115). -/
def EXCHANGE_TIGER2VT : List (String × Exchange) :=
  [("US", Exchange.NASDAQ), ("HK", Exchange.SEHK), ("CN", Exchange.SSE)]

/-- Inverted exchange mapping `EXCHANGE_VT2TIGER` (tiger_gateway.py line 117). -/
def EXCHANGE_VT2TIGER : List (Exchange × String) :=
  EXCHANGE_TIGER2VT.map (fun p => (p.2, p.1))

/-- Python `str.split(".")` on the underlying character list: splits at every
`'.'`, keeping empty pieces, and returns `[cs]` when no `'.'` occurs. -/
def pySplitDot : List Char → List (List Char)
  | [] => [[]]
  | c :: rest =>
    if c = '.' then [] :: pySplitDot rest
    else
      match pySplitDot rest with
      | [] => [[c]]
      | h :: t => (c :: h) :: t

/-- Embedding of `convert_symbol_tiger2vt` (tiger_gateway.py lines 120-128).
Returns `none` exactly when the Python original raises: the tuple unpacking
`symbol, exchange_str = tiger_symbol.split(".")` fails with `ValueError`
whenever the split does not yield exactly two pieces. -/
def convert_symbol_tiger2vt (tiger_symbol : String) : Option (String × Exchange) :=
  if '.' ∈ tiger_symbol.data then
    match pySplitDot tiger_symbol.data with
    | [a, b] =>
      some (String.mk a, (EXCHANGE_TIGER2VT.lookup (String.mk b)).getD Exchange.NASDAQ)
    | _ => none
  else
    some (tiger_symbol, Exchange.NASDAQ)

/-- Embedding of `convert_symbol_vt2tiger` (tiger_gateway.py lines 131-134). -/
def convert_symbol_vt2tiger (symbol : String) (exchange : Exchange) : String :=
  symbol ++ "." ++ (EXCHANGE_VT2TIGER.lookup exchange).getD "US"

/-- Platform order request (`vnpy.trader.object.OrderRequest`), the fields this
gateway reads. -/
structure OrderRequest where
  symbol : String
  exchange : Exchange
  direction : Direction
  type : OrderType
  volume : ℚ
  price : ℚ
deriving DecidableEq, Repr

/-- The request's `vt_symbol` property (vnpy: `f"{symbol}.{exchange.value}"`). -/
def OrderRequest.vt_symbol (req : OrderRequest) : String :=
  req.symbol ++ "." ++ req.exchange.value

/-- Platform order record (`vnpy.trader.object.OrderData`), the fields this
gateway writes. -/
structure OrderData where
  symbol : String
  exchange : Exchange
  orderid : String
  type : OrderType
  direction : Direction
  price : ℚ
  volume : ℚ
  status : Status
  gateway_name : String
deriving DecidableEq, Repr

/-- The order's `vt_orderid` property (vnpy: `f"{gateway_name}.{orderid}"`). -/
def OrderData.vt_orderid (o : OrderData) : String :=
  o.gateway_name ++ "." ++ o.orderid

/-- Embedding of vnpy's `OrderRequest.create_order_data(orderid, gateway_name)`:
copies the request fields into a fresh `OrderData` whose status starts at the
dataclass default `Status.SUBMITTING`. -/
def OrderRequest.create_order_data (req : OrderRequest) (orderid gateway_name : String) :
    OrderData :=
  { symbol := req.symbol
    exchange := req.exchange
    orderid := orderid
    type := req.type
    direction := req.direction
    price := req.price
    volume := req.volume
    status := Status.SUBMITTING
    gateway_name := gateway_name }

/-- Platform contract record (`vnpy.trader.object.ContractData`), the fields
this gateway writes in `get_contract`. -/
structure ContractData where
  symbol : String
  exchange : Exchange
  name : String
  product : Product
  size : ℚ
  pricetick : ℚ
  gateway_name : String
deriving DecidableEq, Repr

/-- The broker-native order built in `send_order` (tiger_gateway.py lines
366-376): a `tigeropen` `Order` with the constructor arguments the gateway
passes, plus the optional limit price set afterwards for limit orders. -/
structure TigerOrder where
  account : String
  symbol : String
  action : String
  order_type : String
  quantity : Int
  limit_price : Option ℚ
deriving DecidableEq, Repr

/-- Observable effects of a gateway operation, in emission order: platform
events (`write_log`, `on_order`, `on_contract`) and outbound broker calls
(`place_order`, `cancel_order` on the trade client). -/
inductive Ev where
  | log (msg : String)
  | onOrder (o : OrderData)
  | onContract (c : ContractData)
  | brokerPlace (o : TigerOrder)
  | brokerCancel (tiger_order_id : String)
deriving DecidableEq, Repr

/-- The order events contained in a trace. -/
def orderEvents (evs : List Ev) : List OrderData :=
  evs.filterMap fun e =>
    match e with
    | Ev.onOrder o => some o
    | _ => none

/-- The contract-added events contained in a trace. -/
def contractEvents (evs : List Ev) : List ContractData :=
  evs.filterMap fun e =>
    match e with
    | Ev.onContract c => some c
    | _ => none

/-- The log events contained in a trace. -/
def logEvents (evs : List Ev) : List String :=
  evs.filterMap fun e =>
    match e with
    | Ev.log m => some m
    | _ => none

/-- The outbound broker calls contained in a trace. -/
def brokerCalls (evs : List Ev) : List Ev :=
  evs.filter fun e =>
    match e with
    | Ev.brokerPlace _ => true
    | Ev.brokerCancel _ => true
    | _ => false

/-- Mutable state of a `TigerGateway` instance: the fields of `__init__`
(tiger_gateway.py lines 152-182) that the modelled operations read or write,
plus `threadStarted` recording whether `connect` started the worker thread.
The fields never touched by the modelled operations (`ticks`, `trades`,
`symbol_names`, `push_connected`, `subscribed_symbols`, `tradeid`) are elided.
Client handles are `Bool`: `false` models Python `None`. -/
structure TigerGW where
  gateway_name : String
  tiger_id : String
  account : String
  private_key : String
  environment : String
  language : String
  local_id : Nat
  active : Bool
  client_config : Bool
  quote_client : Bool
  trade_client : Bool
  push_client : Bool
  threadStarted : Bool
  queue : List String
  ID_TIGER2VT : List (String × String)
  ID_VT2TIGER : List (String × String)
  contracts : List (String × ContractData)
deriving DecidableEq, Repr

/-- The state `__init__` leaves a fresh gateway in (tiger_gateway.py lines
152-182), with the default gateway name `"TIGER"`. -/
def initGW : TigerGW :=
  { gateway_name := "TIGER"
    tiger_id := ""
    account := ""
    private_key := ""
    environment := "sandbox"
    language := "zh_CN"
    local_id := 1000000
    active := false
    client_config := false
    quote_client := false
    trade_client := false
    push_client := false
    threadStarted := false
    queue := []
    ID_TIGER2VT := []
    ID_VT2TIGER := []
    contracts := [] }

/-- Embedding of `TigerGateway.get_new_local_id` (tiger_gateway.py lines
529-532): increments `local_id` and returns its decimal string. -/
def TigerGW.get_new_local_id (g : TigerGW) : String × TigerGW :=
  let g1 := { g with local_id := g.local_id + 1 }
  (toString g1.local_id, g1)

/-- Embedding of `TigerGateway.get_contract` (tiger_gateway.py lines 602-631):
return the cached contract for `f"{symbol}.{exchange.value}"` if present,
otherwise construct a default equity descriptor, cache it, emit `on_contract`
and a log. The `except` branch of the source (returning `None`) is unreachable
here because the `ContractData` construction cannot raise. -/
def TigerGW.get_contract (g : TigerGW) (symbol : String) (exchange : Exchange) :
    ContractData × TigerGW × List Ev :=
  let vt_symbol := symbol ++ "." ++ exchange.value
  match g.contracts.lookup vt_symbol with
  | some c => (c, g, [])
  | none =>
    let contract : ContractData :=
      { symbol := symbol
        exchange := exchange
        name := symbol
        product := Product.EQUITY
        size := 1
        pricetick := 1 / 100
        gateway_name := g.gateway_name }
    (contract,
     { g with contracts := (vt_symbol, contract) :: g.contracts },
     [Ev.onContract contract,
      Ev.log ("动态创建合约: " ++ symbol ++ " (" ++ exchange.value ++ ")")])

/-- Embedding of `TigerGateway.send_order` (tiger_gateway.py lines 349-396).
`placeOutcome` is the broker oracle for `trade_client.place_order`:
`.error e` models the try-block raising with message `e`, `.ok b` a normal
return with truthiness `b`. Every path returns normally (the source catches
every exception of the try block), so the embedding is a total function. -/
def TigerGW.send_order (g : TigerGW) (req : OrderRequest)
    (placeOutcome : Except String Bool) : String × TigerGW × List Ev :=
  if g.trade_client = false then
    ("", g, [Ev.log "交易客户端未连接，无法发送订单"])
  else
    let rc := g.get_contract req.symbol req.exchange
    let g1 := rc.2.1
    let rid := g1.get_new_local_id
    let local_id := rid.1
    let g2 := rid.2
    let order := req.create_order_data local_id g.gateway_name
    let tiger_order : TigerOrder :=
      { account := g.account
        symbol := req.symbol
        action := (DIRECTION_VT2TIGER.lookup req.direction).getD "BUY"
        order_type := (ORDERTYPE_VT2TIGER.lookup req.type).getD "LMT"
        quantity := req.volume.floor
        limit_price := if req.type = OrderType.LIMIT then some req.price else none }
    match placeOutcome with
    | Except.ok true =>
      let o := { order with status := Status.SUBMITTING }
      (o.vt_orderid, g2,
       rc.2.2 ++
        [Ev.brokerPlace tiger_order, Ev.onOrder o,
         Ev.log ("订单提交成功: " ++ req.vt_symbol ++ " " ++ req.direction.value
                   ++ " " ++ toString req.volume ++ "@" ++ toString req.price)])
    | Except.ok false =>
      let o := { order with status := Status.REJECTED }
      ("", g2,
       rc.2.2 ++
        [Ev.brokerPlace tiger_order, Ev.onOrder o,
         Ev.log ("订单提交失败: " ++ req.vt_symbol)])
    | Except.error e =>
      let o := { order with status := Status.REJECTED }
      ("", g2,
       rc.2.2 ++
        [Ev.brokerPlace tiger_order, Ev.onOrder o,
         Ev.log ("订单提交异常: " ++ e)])

/-- Embedding of `TigerGateway.cancel_order` (tiger_gateway.py lines 398-420).
`cancelOutcome` is the broker oracle for `trade_client.cancel_order`. The
Python guard `if not tiger_order_id` is falsy both for `None` (no binding) and
for a bound empty string, so both take the not-found branch. Every path
returns normally. -/
def TigerGW.cancel_order (g : TigerGW) (orderid : String)
    (cancelOutcome : Except String Bool) : TigerGW × List Ev :=
  if g.trade_client = false then
    (g, [Ev.log "交易客户端未连接，无法撤销订单"])
  else
    match g.ID_VT2TIGER.lookup orderid with
    | none => (g, [Ev.log ("未找到对应的Tiger订单ID: " ++ orderid)])
    | some tiger_order_id =>
      if tiger_order_id = "" then
        (g, [Ev.log ("未找到对应的Tiger订单ID: " ++ orderid)])
      else
        match cancelOutcome with
        | Except.ok true =>
          (g, [Ev.brokerCancel tiger_order_id, Ev.log ("撤销订单成功: " ++ orderid)])
        | Except.ok false =>
          (g, [Ev.brokerCancel tiger_order_id, Ev.log ("撤销订单失败: " ++ orderid)])
        | Except.error e =>
          (g, [Ev.brokerCancel tiger_order_id, Ev.log ("撤销订单异常: " ++ e)])

/-- The exchanges the gateway publicly advertises (`TigerGateway.exchanges`,
tiger_gateway.py line 150). -/
def TigerGW.exchanges : List Exchange :=
  [Exchange.NASDAQ, Exchange.NYSE, Exchange.SEHK, Exchange.SSE, Exchange.SZSE]

/-- Embedding of `TigerGateway.connect` (tiger_gateway.py lines 184-219).
`tigerAvailable` models whether `import tigeropen` succeeds at the top of the
method. `setting` is the settings dict. The source reads
`setting["tiger_id"]`, `setting["account"]` and `setting["private_key"]` with
bare indexing, so an absent key raises `KeyError` (returned as `.error`);
`environment` and `language` use `.get` with defaults. When every credential
is present but one is empty (Python falsiness of `str`), the source logs and
returns before `init_client_config` and before the worker thread starts.
Otherwise it initialises the client config, starts the worker thread, and
enqueues the four connect/query tasks in order. -/
def TigerGW.connect (g : TigerGW) (tigerAvailable : Bool)
    (setting : List (String × String)) : Except String (TigerGW × List Ev) :=
  if tigerAvailable = false then
    Except.ok (g, [Ev.log "Tiger API未安装，请先安装: pip install tigeropen"])
  else
    match setting.lookup "tiger_id" with
    | none => Except.error "KeyError: tiger_id"
    | some tid =>
      match setting.lookup "account" with
      | none => Except.error "KeyError: account"
      | some acc =>
        match setting.lookup "private_key" with
        | none => Except.error "KeyError: private_key"
        | some pk =>
          let env := (setting.lookup "environment").getD "sandbox"
          let language_str := (setting.lookup "language").getD "zh_CN"
          let lang := if language_str = "zh_CN" then "zh_CN" else "en_US"
          let g1 := { g with tiger_id := tid, account := acc, private_key := pk,
                             environment := env, language := lang }
          if tid = "" ∨ acc = "" ∨ pk = "" then
            Except.ok (g1, [Ev.log "请填写完整的Tiger ID、账户和私钥信息"])
          else
            let g2 := { g1 with
              client_config := true
              active := true
              threadStarted := true
              queue := g1.queue ++
                ["connect_quote", "connect_trade", "connect_push", "query_contracts"] }
            Except.ok (g2, [])

/-- Embedding of `TigerGateway.close` (tiger_gateway.py lines 318-323): sets
the stop flag; the subsequent `query_thread.join()` is modelled by
`CLOSE_JOIN_TIMEOUT` and by running `runLoop` with the stop flag observed. -/
def TigerGW.close (g : TigerGW) : TigerGW :=
  { g with active := false }

/-- The timeout argument `close` passes to `query_thread.join()`
(tiger_gateway.py line 323): the call is `join()` with Python's default
`timeout=None`, i.e. an unbounded wait. -/
def CLOSE_JOIN_TIMEOUT : Option ℚ := none

/-- The idle-poll interval of the worker loop: `queue.get(timeout=0.1)`
(tiger_gateway.py line 234), in seconds. -/
def QUEUE_GET_TIMEOUT : ℚ := 1 / 10

/-- A task popped by the worker loop, abstracted by its observable outcome:
`err = none` models `func(*args)` returning normally, `err = some e` models it
raising an exception with message `e`. `tid` identifies the task in traces. -/
structure WorkerTask where
  tid : Nat
  err : Option String
deriving DecidableEq, Repr

/-- Trace events of the worker loop: `taskRun tid` records that the task was
invoked, `taskLog msg` a `write_log` emitted by the loop's exception handler. -/
inductive WorkerEv where
  | taskRun (tid : Nat)
  | taskLog (msg : String)
deriving DecidableEq, Repr

/-- Executing one task in the worker loop body (tiger_gateway.py lines
234-239): the task runs; if it raises, the `except Exception` arm logs
`f"执行任务异常: {e}"` and the loop continues. -/
def execTask (t : WorkerTask) : List WorkerEv :=
  match t.err with
  | none => [WorkerEv.taskRun t.tid]
  | some e => [WorkerEv.taskRun t.tid, WorkerEv.taskLog ("执行任务异常: " ++ e)]

/-- Embedding of the worker loop `TigerGateway.run` (tiger_gateway.py lines
230-239). `self.active` is written by another thread (`connect` / `close`), so
it is modelled as the list `activeObs` of values the loop condition reads, one
per iteration; the queue is the list of pending tasks. Each iteration: if the
observed flag is `false` the loop exits, returning the still-pending tasks;
otherwise it pops one task (or idles on `Empty` for at most
`QUEUE_GET_TIMEOUT` seconds when the queue is empty) and executes it, with the
task's exception — if any — caught and logged. The result is the remaining
queue at exit together with the event trace. -/
def runLoop : List Bool → List WorkerTask → List WorkerTask × List WorkerEv
  | [], q => (q, [])
  | a :: rest, q =>
    if a then
      match q with
      | [] => runLoop rest []
      | t :: q1 =>
        let r := runLoop rest q1
        (r.1, execTask t ++ r.2)
    else (q, [])

/-- The gateway state after `n` calls to `get_new_local_id`, starting from
`g`. -/
def genState (g : TigerGW) : Nat → TigerGW
  | 0 => g
  | n + 1 => ((genState g n).get_new_local_id).2

/-- The numeric value underlying the `(n+1)`-th id returned by
`get_new_local_id` when iterated from `g`. -/
def nthIdNum (g : TigerGW) (n : Nat) : Nat :=
  ((genState g n).get_new_local_id).2.local_id

/-- The `(n+1)`-th id string returned by `get_new_local_id` when iterated from
`g`. -/
def nthId (g : TigerGW) (n : Nat) : String :=
  ((genState g n).get_new_local_id).1

/-- A gateway whose trade connection is up: the state reached after a
successful `connect` (client config initialised, worker thread running) and a
successful `connect_quote` / `connect_trade` task. -/
def connectedGW : TigerGW :=
  { initGW with
    tiger_id := "id1", account := "acc1", private_key := "key1",
    client_config := true, active := true, threadStarted := true,
    quote_client := true, trade_client := true }

/-- The order request of end-to-end scenario 1 of the spec:
`{symbol:"AAPL", exchange:NASDAQ, direction:LONG, type:LIMIT, price:150.00,
volume:10}`. -/
def aaplReq : OrderRequest :=
  { symbol := "AAPL", exchange := Exchange.NASDAQ, direction := Direction.LONG,
    type := OrderType.LIMIT, volume := 10, price := 150 }

theorem lookup_eq_none_of_not_mem_keys {α β : Type} [BEq α] [LawfulBEq α]
    (l : List (α × β)) (a : α) (h : a ∉ l.map Prod.fst) : l.lookup a = none := by
  induction l with
  | nil => rfl
  | cons p t ih =>
    obtain ⟨k, v⟩ := p
    simp only [List.map_cons, List.mem_cons, not_or] at h
    have hne : (a == k) = false := beq_eq_false_iff_ne.mpr h.1
    simp only [List.lookup, hne]
    exact ih h.2

theorem runLoop_replicate_true (q : List WorkerTask) :
    runLoop (List.replicate q.length true) q = ([], q.flatMap execTask) := by
  induction q with
  | nil => rfl
  | cons t tl ih => simp [runLoop, List.replicate, ih]

/-- C2: the broker-to-platform order-status mapping sends every enumerated
broker status to exactly the documented platform status (PendingNew→Submitting,
New→NotTraded, PartiallyFilled→PartTraded, Filled→AllTraded,
PendingCancel→Cancelling, Cancelled→Cancelled, Rejected→Rejected,
Expired→Cancelled), and every broker status outside this enumeration maps to
Submitting rather than failing or dropping the order. -/
theorem status_mapping_correct (s : String)
    (h : s ∉ STATUS_TIGER2VT.map Prod.fst) :
    status_tiger2vt "PENDING_NEW" = Status.SUBMITTING ∧
    status_tiger2vt "NEW" = Status.NOTTRADED ∧
    status_tiger2vt "PARTIALLY_FILLED" = Status.PARTTRADED ∧
    status_tiger2vt "FILLED" = Status.ALLTRADED ∧
    status_tiger2vt "PENDING_CANCEL" = Status.CANCELLING ∧
    status_tiger2vt "CANCELLED" = Status.CANCELLED ∧
    status_tiger2vt "REJECTED" = Status.REJECTED ∧
    status_tiger2vt "EXPIRED" = Status.CANCELLED ∧
    status_tiger2vt s = Status.SUBMITTING := by
  refine ⟨by decide, by decide, by decide, by decide, by decide, by decide,
    by decide, by decide, ?_⟩
  unfold status_tiger2vt
  rw [lookup_eq_none_of_not_mem_keys STATUS_TIGER2VT s h]
  rfl

theorem status_mapping_correct_witness :
    "CUSTOM_BROKER_STATE" ∉ STATUS_TIGER2VT.map Prod.fst ∧
    (status_tiger2vt "PENDING_NEW" = Status.SUBMITTING ∧
     status_tiger2vt "NEW" = Status.NOTTRADED ∧
     status_tiger2vt "PARTIALLY_FILLED" = Status.PARTTRADED ∧
     status_tiger2vt "FILLED" = Status.ALLTRADED ∧
     status_tiger2vt "PENDING_CANCEL" = Status.CANCELLING ∧
     status_tiger2vt "CANCELLED" = Status.CANCELLED ∧
     status_tiger2vt "REJECTED" = Status.REJECTED ∧
     status_tiger2vt "EXPIRED" = Status.CANCELLED ∧
     status_tiger2vt "CUSTOM_BROKER_STATE" = Status.SUBMITTING) :=
  ⟨by decide, status_mapping_correct "CUSTOM_BROKER_STATE" (by decide)⟩

/-- C4: a cancel request whose order id has no binding in `ID_VT2TIGER` makes
no broker cancel call, emits exactly one log event, emits no order event, and
returns normally with the gateway state unchanged. -/
theorem cancel_unbound_is_noop (g : TigerGW) (orderid : String)
    (cancelOutcome : Except String Bool) (hc : g.trade_client = true)
    (h : g.ID_VT2TIGER.lookup orderid = none) :
    g.cancel_order orderid cancelOutcome =
      (g, [Ev.log ("未找到对应的Tiger订单ID: " ++ orderid)]) := by
  simp [TigerGW.cancel_order, hc, h]

theorem cancel_unbound_is_noop_witness :
    connectedGW.trade_client = true ∧
    connectedGW.ID_VT2TIGER.lookup "999999" = none ∧
    connectedGW.cancel_order "999999" (Except.ok true) =
      (connectedGW, [Ev.log ("未找到对应的Tiger订单ID: " ++ "999999")]) :=
  ⟨by decide, by decide,
    cancel_unbound_is_noop connectedGW "999999" (Except.ok true) (by decide) (by decide)⟩

/-- C5 counterexample: the claim that `close()` signals the worker to stop
"after draining the task queue" and joins it "with a bounded wait" is false on
the code. With one task still queued and the stop flag already observed as
false, the worker exits immediately leaving the queue undrained; and the join
in `close` is `query_thread.join()` with no timeout argument, an unbounded
wait with no timeout logging. -/
theorem close_drain_bounded_join_refuted :
    (runLoop [false] [⟨1, none⟩]).1 ≠ [] ∧
    ¬ (∃ t : ℚ, CLOSE_JOIN_TIMEOUT = some t) := by
  constructor
  · decide
  · rintro ⟨t, ht⟩
    simp [CLOSE_JOIN_TIMEOUT] at ht

/-- C5 amended: `close()` sets the stop flag immediately — the worker exits at
its next loop-condition check without executing any still-queued tasks, so the
flag is observed within one idle-poll interval (the 0.1-second
`queue.get` timeout) — and then joins the worker thread with an unbounded wait
(`join()` with no timeout argument and no timeout logging). -/
theorem close_stops_worker_unbounded_join (g : TigerGW) (obs : List Bool)
    (q : List WorkerTask) :
    (TigerGW.close g).active = false ∧
    runLoop (false :: obs) q = (q, []) ∧
    CLOSE_JOIN_TIMEOUT = none ∧
    QUEUE_GET_TIMEOUT = 1 / 10 :=
  ⟨rfl, rfl, rfl, rfl⟩

/-- C6: the worker loop runs every queued task even when earlier tasks raise:
a raising task only adds a log event (`execTask`), the loop never terminates
on a task exception, and every task in the queue is invoked. -/
theorem worker_survives_task_exceptions (q : List WorkerTask) (t : WorkerTask)
    (h : t ∈ q) :
    runLoop (List.replicate q.length true) q = ([], q.flatMap execTask) ∧
    WorkerEv.taskRun t.tid ∈ (runLoop (List.replicate q.length true) q).2 := by
  refine ⟨runLoop_replicate_true q, ?_⟩
  rw [runLoop_replicate_true q]
  exact List.mem_flatMap.mpr ⟨t, h, by cases he : t.err <;> simp [execTask, he]⟩

theorem worker_survives_task_exceptions_witness :
    (⟨3, none⟩ : WorkerTask) ∈
      [⟨1, none⟩, ⟨2, some "网络超时"⟩, (⟨3, none⟩ : WorkerTask)] ∧
    (runLoop (List.replicate ([⟨1, none⟩, ⟨2, some "网络超时"⟩,
        (⟨3, none⟩ : WorkerTask)] : List WorkerTask).length true)
        [⟨1, none⟩, ⟨2, some "网络超时"⟩, ⟨3, none⟩] =
      ([], ([⟨1, none⟩, ⟨2, some "网络超时"⟩,
        (⟨3, none⟩ : WorkerTask)] : List WorkerTask).flatMap execTask) ∧
     WorkerEv.taskRun 3 ∈
      (runLoop (List.replicate ([⟨1, none⟩, ⟨2, some "网络超时"⟩,
        (⟨3, none⟩ : WorkerTask)] : List WorkerTask).length true)
        [⟨1, none⟩, ⟨2, some "网络超时"⟩, ⟨3, none⟩]).2) :=
  ⟨by decide,
   worker_survives_task_exceptions
     [⟨1, none⟩, ⟨2, some "网络超时"⟩, ⟨3, none⟩] ⟨3, none⟩ (by decide)⟩

theorem genState_local_id (n : Nat) :
    (genState initGW n).local_id = 1000000 + n := by
  induction n with
  | zero => rfl
  | succ k ih => simp [genState, TigerGW.get_new_local_id, ih]; omega

/-- C7: the local-id generator, iterated from the freshly constructed gateway
(`local_id = 1000000`), returns ids whose numeric values are strictly
increasing (hence pairwise distinct) and all strictly greater than the base
value 1000000; the returned string is the decimal rendering of that numeric
value. -/
theorem local_ids_increasing (i j : Nat) (h : i < j) :
    1000000 < nthIdNum initGW i ∧
    nthIdNum initGW i < nthIdNum initGW j ∧
    nthIdNum initGW i ≠ nthIdNum initGW j ∧
    nthId initGW i = toString (nthIdNum initGW i) := by
  have hi : nthIdNum initGW i = 1000000 + i + 1 := by
    simp [nthIdNum, TigerGW.get_new_local_id, genState_local_id]
  have hj : nthIdNum initGW j = 1000000 + j + 1 := by
    simp [nthIdNum, TigerGW.get_new_local_id, genState_local_id]
  refine ⟨by omega, by omega, by omega, ?_⟩
  rfl

theorem local_ids_increasing_witness :
    0 < 1 ∧
    (1000000 < nthIdNum initGW 0 ∧
     nthIdNum initGW 0 < nthIdNum initGW 1 ∧
     nthIdNum initGW 0 ≠ nthIdNum initGW 1 ∧
     nthId initGW 0 = toString (nthIdNum initGW 0)) :=
  ⟨by decide, local_ids_increasing 0 1 (by decide)⟩

/-- C8: contract lookup is idempotent. Starting from any state in which the
key `f"{symbol}.{exchange.value}"` is not yet cached, two consecutive
`get_contract` calls return descriptor-equal results, only the first call
emits a contract-added event, and the second call leaves the gateway state
(in particular the contract cache) unchanged. -/
theorem get_contract_idempotent (g : TigerGW) (s : String) (e : Exchange)
    (h : g.contracts.lookup (s ++ "." ++ e.value) = none) :
    ((g.get_contract s e).2.1.get_contract s e).1 = (g.get_contract s e).1 ∧
    ((g.get_contract s e).2.1.get_contract s e).2.1 = (g.get_contract s e).2.1 ∧
    contractEvents (g.get_contract s e).2.2 = [(g.get_contract s e).1] ∧
    contractEvents ((g.get_contract s e).2.1.get_contract s e).2.2 = [] := by
  simp [TigerGW.get_contract, h, contractEvents]

theorem get_contract_idempotent_witness :
    initGW.contracts.lookup ("AAPL" ++ "." ++ Exchange.NASDAQ.value) = none ∧
    (((initGW.get_contract "AAPL" Exchange.NASDAQ).2.1.get_contract "AAPL"
        Exchange.NASDAQ).1 = (initGW.get_contract "AAPL" Exchange.NASDAQ).1 ∧
     ((initGW.get_contract "AAPL" Exchange.NASDAQ).2.1.get_contract "AAPL"
        Exchange.NASDAQ).2.1 = (initGW.get_contract "AAPL" Exchange.NASDAQ).2.1 ∧
     contractEvents (initGW.get_contract "AAPL" Exchange.NASDAQ).2.2 =
        [(initGW.get_contract "AAPL" Exchange.NASDAQ).1] ∧
     contractEvents ((initGW.get_contract "AAPL" Exchange.NASDAQ).2.1.get_contract
        "AAPL" Exchange.NASDAQ).2.2 = []) :=
  ⟨by decide, get_contract_idempotent initGW "AAPL" Exchange.NASDAQ (by decide)⟩

theorem orderEvents_append (a b : List Ev) :
    orderEvents (a ++ b) = orderEvents a ++ orderEvents b := by
  simp [orderEvents]

theorem orderEvents_get_contract (g : TigerGW) (s : String) (e : Exchange) :
    orderEvents (g.get_contract s e).2.2 = [] := by
  unfold TigerGW.get_contract
  cases h : g.contracts.lookup (s ++ "." ++ e.value) <;> simp [h, orderEvents]

theorem get_contract_local_id (g : TigerGW) (s : String) (e : Exchange) :
    (g.get_contract s e).2.1.local_id = g.local_id := by
  unfold TigerGW.get_contract
  cases h : g.contracts.lookup (s ++ "." ++ e.value) <;> simp [h]

/-- C3: when the broker placement call raises, `send_order` returns the empty
order-id sentinel and the full event trace contains exactly one order event,
whose status is `Rejected` (the order record built from the request and the
freshly allocated local id). No exception propagates: the embedding of
`send_order` is a total function into plain values, the `.error` oracle
outcome being consumed by the modelled `except` arm. -/
theorem send_order_exception_rejected (g : TigerGW) (req : OrderRequest)
    (e : String) (hc : g.trade_client = true) :
    (g.send_order req (Except.error e)).1 = "" ∧
    orderEvents (g.send_order req (Except.error e)).2.2 =
      [{ req.create_order_data (toString (g.local_id + 1)) g.gateway_name with
          status := Status.REJECTED }] := by
  constructor
  · simp [TigerGW.send_order, hc]
  · cases h : g.contracts.lookup (req.symbol ++ "." ++ req.exchange.value) with
    | none =>
      simp [TigerGW.send_order, hc, TigerGW.get_contract, h, orderEvents,
        TigerGW.get_new_local_id]
    | some c =>
      simp [TigerGW.send_order, hc, TigerGW.get_contract, h, orderEvents,
        TigerGW.get_new_local_id]

theorem send_order_exception_rejected_witness :
    connectedGW.trade_client = true ∧
    ((connectedGW.send_order aaplReq (Except.error "网络异常")).1 = "" ∧
     orderEvents (connectedGW.send_order aaplReq (Except.error "网络异常")).2.2 =
       [{ aaplReq.create_order_data (toString (connectedGW.local_id + 1))
            connectedGW.gateway_name with status := Status.REJECTED }]) :=
  ⟨by decide,
   send_order_exception_rejected connectedGW aaplReq "网络异常" (by decide)⟩

/-- C1 (code bug): end-to-end scenario 1 — `send_order` of the AAPL limit
order on a gateway whose trade connection is up, with the broker synchronously
accepting (`place_order` returns a truthy result). The call does return a
non-empty order id and does emit exactly one order event with
status=Submitting, but it binds nothing in the identifier registry:
`ID_VT2TIGER` and `ID_TIGER2VT` are left empty (the source never writes
either map, and never even captures the broker-assigned id from
`place_order`'s return value), so every later `cancel_order` for this id hits
the not-found branch. -/
theorem send_order_accept_never_binds_ids :
    (connectedGW.send_order aaplReq (Except.ok true)).1 = "TIGER.1000001" ∧
    orderEvents (connectedGW.send_order aaplReq (Except.ok true)).2.2 =
      [{ aaplReq.create_order_data "1000001" "TIGER" with
          status := Status.SUBMITTING }] ∧
    (connectedGW.send_order aaplReq (Except.ok true)).2.1.ID_VT2TIGER = [] ∧
    (connectedGW.send_order aaplReq (Except.ok true)).2.1.ID_TIGER2VT = [] ∧
    (connectedGW.send_order aaplReq (Except.ok true)).2.1.cancel_order
        "1000001" (Except.ok true) =
      ((connectedGW.send_order aaplReq (Except.ok true)).2.1,
       [Ev.log ("未找到对应的Tiger订单ID: " ++ "1000001")]) := by
  refine ⟨rfl, rfl, rfl, rfl, rfl⟩

/-- C9 (code bug): `connect` on a settings dict that is missing the
`private_key` entry altogether — the exact input used by the repository's own
`test_connect_missing_credentials` — raises `KeyError` from the bare indexing
`setting["private_key"]` before the credential check is reached (whenever the
`tigeropen` import at the top of `connect` succeeds), instead of logging and
returning cleanly. By contrast, when all three credential keys are present
but empty, the claimed behaviour does hold: one log event, no client
construction, no worker thread, state left disconnected (identical to the
freshly initialised gateway). -/
theorem connect_missing_key_raises :
    initGW.connect true [("tiger_id", ""), ("account", "")] =
      Except.error "KeyError: private_key" ∧
    initGW.connect true
        [("tiger_id", ""), ("account", ""), ("private_key", "")] =
      Except.ok (initGW, [Ev.log "请填写完整的Tiger ID、账户和私钥信息"]) ∧
    initGW.threadStarted = false ∧
    initGW.active = false ∧
    initGW.client_config = false := by
  refine ⟨rfl, rfl, rfl, rfl, rfl⟩

theorem pySplitDot_no_dot (l : List Char) (h : '.' ∉ l) : pySplitDot l = [l] := by
  induction l with
  | nil => rfl
  | cons c rest ih =>
    simp only [List.mem_cons, not_or] at h
    have hc : ¬ c = '.' := fun hcc => h.1 hcc.symm
    simp [pySplitDot, hc, ih h.2]

theorem pySplitDot_append_dot (a r : List Char) (h : '.' ∉ a) :
    pySplitDot (a ++ '.' :: r) = a :: pySplitDot r := by
  induction a with
  | nil => simp [pySplitDot]
  | cons c rest ih =>
    simp only [List.mem_cons, not_or] at h
    have hc : ¬ c = '.' := fun hcc => h.1 hcc.symm
    simp [pySplitDot, hc, ih h.2]

theorem tiger2vt_of_vt2tiger_shape (s sfx : String) (hs : '.' ∉ s.data)
    (hx : '.' ∉ sfx.data) :
    convert_symbol_tiger2vt (s ++ "." ++ sfx) =
      some (s, (EXCHANGE_TIGER2VT.lookup sfx).getD Exchange.NASDAQ) := by
  have hdot : ("." : String).data = ['.'] := rfl
  have hdata : (s ++ "." ++ sfx).data = s.data ++ '.' :: sfx.data := by
    rw [String.data_append, String.data_append, hdot, List.append_assoc]
    rfl
  unfold convert_symbol_tiger2vt
  rw [hdata]
  have hmem : '.' ∈ s.data ++ '.' :: sfx.data := by simp
  rw [if_pos hmem, pySplitDot_append_dot s.data sfx.data hs,
    pySplitDot_no_dot sfx.data hx]

/-- C10: symbol translation round-trips exactly on the exchanges that are
values of `EXCHANGE_TIGER2VT` (NASDAQ, SEHK, SSE): for any dot-free symbol,
`convert_symbol_tiger2vt (convert_symbol_vt2tiger symbol exchange)` returns
the original pair. For every other exchange — including NYSE and SZSE, which
the gateway publicly advertises in `TigerGW.exchanges` —
`convert_symbol_vt2tiger` falls back to the `"US"` suffix and the round trip
yields NASDAQ instead of the original exchange. -/
theorem symbol_roundtrip (s : String) (e : Exchange) (hs : '.' ∉ s.data) :
    (e ∈ EXCHANGE_TIGER2VT.map Prod.snd →
      convert_symbol_tiger2vt (convert_symbol_vt2tiger s e) = some (s, e)) ∧
    (e ∉ EXCHANGE_TIGER2VT.map Prod.snd →
      convert_symbol_tiger2vt (convert_symbol_vt2tiger s e) =
        some (s, Exchange.NASDAQ)) ∧
    Exchange.NYSE ∈ TigerGW.exchanges ∧ Exchange.SZSE ∈ TigerGW.exchanges := by
  have step : ∀ sfx : String, '.' ∉ sfx.data →
      convert_symbol_tiger2vt (s ++ "." ++ sfx) =
        some (s, (EXCHANGE_TIGER2VT.lookup sfx).getD Exchange.NASDAQ) :=
    fun sfx hx => tiger2vt_of_vt2tiger_shape s sfx hs hx
  cases e with
  | NASDAQ =>
    refine ⟨fun _ => ?_, fun hne => absurd (by decide) hne, by decide, by decide⟩
    have hv : convert_symbol_vt2tiger s Exchange.NASDAQ = s ++ "." ++ "US" := rfl
    rw [hv, step "US" (by decide)]
    rfl
  | NYSE =>
    refine ⟨fun hmem => absurd hmem (by decide), fun _ => ?_, by decide, by decide⟩
    have hv : convert_symbol_vt2tiger s Exchange.NYSE = s ++ "." ++ "US" := rfl
    rw [hv, step "US" (by decide)]
    rfl
  | SEHK =>
    refine ⟨fun _ => ?_, fun hne => absurd (by decide) hne, by decide, by decide⟩
    have hv : convert_symbol_vt2tiger s Exchange.SEHK = s ++ "." ++ "HK" := rfl
    rw [hv, step "HK" (by decide)]
    rfl
  | SSE =>
    refine ⟨fun _ => ?_, fun hne => absurd (by decide) hne, by decide, by decide⟩
    have hv : convert_symbol_vt2tiger s Exchange.SSE = s ++ "." ++ "CN" := rfl
    rw [hv, step "CN" (by decide)]
    rfl
  | SZSE =>
    refine ⟨fun hmem => absurd hmem (by decide), fun _ => ?_, by decide, by decide⟩
    have hv : convert_symbol_vt2tiger s Exchange.SZSE = s ++ "." ++ "US" := rfl
    rw [hv, step "US" (by decide)]
    rfl

theorem symbol_roundtrip_witness :
    '.' ∉ ("AAPL" : String).data ∧
    ((Exchange.NYSE ∈ EXCHANGE_TIGER2VT.map Prod.snd →
       convert_symbol_tiger2vt (convert_symbol_vt2tiger "AAPL" Exchange.NYSE) =
         some ("AAPL", Exchange.NYSE)) ∧
     (Exchange.NYSE ∉ EXCHANGE_TIGER2VT.map Prod.snd →
       convert_symbol_tiger2vt (convert_symbol_vt2tiger "AAPL" Exchange.NYSE) =
         some ("AAPL", Exchange.NASDAQ)) ∧
     Exchange.NYSE ∈ TigerGW.exchanges ∧ Exchange.SZSE ∈ TigerGW.exchanges) :=
  ⟨by decide, symbol_roundtrip "AAPL" Exchange.NYSE (by decide)⟩
